import Mathlib

/-!
# Verification of the runtime.js kernel thread unit (src/kernel/thread.cc)

A shallow embedding of the per-core thread abstraction: the message-driven
event loop (`Thread::Run`), the lifecycle operations (`Thread::SetUp`,
`Thread::TearDown`), the preemption tick (`Thread::TimerTick`), the timeout
registration (`Thread::SetTimeout`) and the export table
(`FunctionExports::Add` / `FunctionExports::Get`).

The scripting engine (V8) is opaque in the source; script execution is
modelled by an `Engine` oracle that decides, for each script invocation,
whether it completes normally or throws an uncaught exception.  Fatal
`RT_ASSERT` branches are modelled by `Except.error Fatal.assertionFailure`.
Machine integers of the source are modelled by `Nat`; none of the verified
properties depend on overflow behaviour.
-/

namespace RTThread

/-- Thread type: `ThreadType` in the source (`DEFAULT | IDLE | TERMINATED`). -/
inductive ThreadType
  | DEFAULT
  | IDLE
  | TERMINATED
deriving DecidableEq, Repr

/-- A fatal invariant violation: a failed `RT_ASSERT` terminates the kernel. -/
inductive Fatal
  | assertionFailure
deriving DecidableEq, Repr

/-- A script-engine value (`v8::Local<v8::Value>`), abstracted: the claims
only need to distinguish null, function values, strings, and values that are
or are not transferable across the isolation boundary. -/
inductive Value
  | nullV
  | func (id : Nat)
  | str (s : String)
  | transferable (n : Nat)
  | nontransferable (n : Nat)
deriving DecidableEq, Repr

/-- `v8::Value::IsFunction()` for the abstracted values. -/
def Value.isFunction : Value → Bool
  | .func _ => true
  | _ => false

/-- `ToString()` coercion used by the EVALUATE case, abstracted: a string
value yields its text, every other value some canonical text. -/
def valueToString : Value → String
  | .str s => s
  | _ => ""

/-- Modelled from the spec: a Transport Value (`TransportData`, whose
implementation is outside this translation unit) — an opaque serialized
representation of a value; it may instead carry a serialization failure,
which the receiver observes (the failure is reported, not silently
dropped). -/
inductive TransportData
  | empty
  | value (v : Value)
  | failure (e : Nat)
deriving DecidableEq, Repr

/-- Modelled from the spec: `TransportData::MoveValue` — serializing a value
out of the sending context.  Non-transferable content yields a reported
`SerializeError`, recorded both in the returned error and in the transport
data itself, so the failure travels with any message the data is put into. -/
def TransportData.moveValue (v : Value) : TransportData × Option Nat :=
  match v with
  | .nontransferable n => (.failure n, some n)
  | v => (.value v, none)

/-- Modelled from the spec: `TransportData::Unpack` — deserializing into the
receiving context.  An empty transport yields an empty local (the dispatch
sites `RT_ASSERT` against that); a carried failure deserializes to an
error-reporting value rather than crashing. -/
def TransportData.unpack : TransportData → Option Value
  | .empty => none
  | .value v => some v
  | .failure _ => some (.str "SerializationError")

/-- Thread message types (`ThreadMessage::Type`). -/
inductive MsgType
  | SET_ARGUMENTS_NOPARENT
  | SET_ARGUMENTS
  | EVALUATE
  | FUNCTION_CALL
  | FUNCTION_RETURN_RESOLVE
  | FUNCTION_RETURN_REJECT
  | TIMEOUT_EVENT
  | IRQ_RAISE
  | EMPTY
deriving DecidableEq, Repr

/-- A `ThreadMessage`: type tag, payload, sender engine-thread handle
(handles are abstracted to `Nat`, an absent handle to `none`), correlation
index (`recv_index_`), and the optional exported-function reference
(`exported_func_`, abstracted to its `(index, export_id)` pair). -/
structure ThreadMessage where
  type_ : MsgType
  data : TransportData
  sender : Option Nat
  recvIndex : Nat
  exportedFunc : Option (Nat × Nat)
deriving DecidableEq, Repr

/-- Uncaught-exception information held by a `v8::TryCatch`: the exception
text and, when available, the script resource name and line number. -/
structure ExnInfo where
  text : String
  location : Option (String × Int)
deriving DecidableEq, Repr

/-- Outcome of one opaque script invocation. -/
inductive Outcome
  | ok
  | threw (e : ExnInfo)
deriving DecidableEq, Repr

/-- The points at which thread.cc hands control to script code. -/
inductive ScriptCall
  | evaluate (src : String)
  | callWrapper (fn : Value) (sender : Option Nat) (arg : Value) (idx : Nat)
  | resolveCall (resolver : Nat) (v : Value)
  | rejectCall (resolver : Nat) (v : Value)
  | timeoutCall (fn : Value)
  | irqCall (fn : Value)
deriving DecidableEq, Repr

/-- The opaque scripting engine: whether a source text compiles, and the
outcome (normal completion or uncaught exception) of each script
invocation.  The engine cannot reach the thread's kernel-side state; it only
determines script-level outcomes. -/
structure Engine where
  compileOk : String → Bool
  run : ScriptCall → Outcome

/-- Observable effects of a `Run` call, in order of occurrence. -/
inductive Event
  | setArgs (v : Value)
  | evaluated (src : String)
  | invokedWrapper (fn : Value) (sender : Option Nat) (arg : Value) (idx : Nat)
  | resolvedPromise (pid : Nat) (v : Value)
  | rejectedPromise (pid : Nat) (v : Value)
  | invokedTimeoutHandler (tid : Nat) (fn : Value)
  | invokedIrqHandler (iid : Nat) (fn : Value)
  | loggedUncaught (e : ExnInfo)
deriving DecidableEq, Repr

/-! ## Keyed tables

The promise, timeout-callback and interrupt-handler tables map an integer id
to a value.  They are modelled as association lists with map semantics
(lookup finds the entry for a key; removal erases the key). -/

/-- Lookup in a keyed table. -/
def lookupA {α : Type} : List (Nat × α) → Nat → Option α
  | [], _ => none
  | e :: l, k => if e.1 = k then some e.2 else lookupA l k

/-- Remove a key from a keyed table. -/
def removeA {α : Type} (l : List (Nat × α)) (k : Nat) : List (Nat × α) :=
  l.filter (fun e => e.1 ≠ k)

/-- Insert-or-replace a key in a keyed table (`avl::Set` on the timeout
tree; last write wins). -/
def setA {α : Type} (l : List (Nat × α)) (k : Nat) (v : α) : List (Nat × α) :=
  removeA l k ++ [(k, v)]

theorem lookupA_removeA {α : Type} (l : List (Nat × α)) (k : Nat) :
    lookupA (removeA l k) k = none := by
  induction l with
  | nil => rfl
  | cons e l ih =>
    by_cases h : e.1 = k
    · simpa [removeA, List.filter, h] using ih
    · simpa [removeA, List.filter, h, lookupA] using ih

/-! ## Export table (`FunctionExports`) -/

/-- The export table: `data_` is the vector of entries, each remembering the
generation id (`export_id`) it was created with and the stored value;
`export_id` is the `export_id_` counter. -/
structure FunctionExports where
  data : List (Nat × Value)
  export_id : Nat
deriving DecidableEq, Repr

/-- `FunctionExports::Add`: appends an entry stamped with a freshly
incremented generation id and returns the external handle's
`(index, export_id)` pair. -/
def FunctionExports.Add (ex : FunctionExports) (v : Value) :
    (Nat × Nat) × FunctionExports :=
  let index := ex.data.length
  let eid := ex.export_id + 1
  ((index, eid), ⟨ex.data ++ [(eid, v)], eid⟩)

/-- `FunctionExports::Get`: bounds-checked (`RT_ASSERT(index < data_.size())`
is fatal on violation); returns the stored value only when the stored
generation id matches, otherwise an empty result. -/
def FunctionExports.Get (ex : FunctionExports) (index : Nat) (eid : Nat) :
    Except Fatal (Option Value) :=
  match ex.data[index]? with
  | none => .error .assertionFailure
  | some entry => if entry.1 = eid then .ok (some entry.2) else .ok none

/-! ## Thread state -/

/-- The kernel-side state of one `Thread`.  V8-owned resources
(`iv8_`, `tpl_cache_`, `context_`) are tracked by presence flags; persistent
handles (`args_`, `exit_value_`) by their abstracted values; the message
queue endpoint (`ethread_`) by the list of queued messages, in arrival
order. -/
structure ThreadState where
  type_ : ThreadType
  priority : Nat
  refCount : Nat
  terminate : Bool
  hasIsolate : Bool
  hasTplCache : Bool
  hasContext : Bool
  argsSet : Bool
  parentThread : Option Nat
  parentPromiseId : Nat
  exitValue : Option Value
  exports : FunctionExports
  promises : List (Nat × Nat)
  timeoutData : List (Nat × Value)
  irqData : List (Nat × Value)
  timeouts : List (Nat × Nat)
  queue : List ThreadMessage
  irqTicksCounter : Nat
  v8InterruptEnabled : Bool
  selfHandle : Nat
deriving DecidableEq, Repr

/-- `Thread::Thread`: the constructor's initial state (type from the engine
thread, refcount 0, terminate flag clear, priority 1, eligibility off,
tick counter 0, no isolate or template cache yet). -/
def Thread.init (t : ThreadType) (selfHandle : Nat) : ThreadState :=
  { type_ := t
    priority := 1
    refCount := 0
    terminate := false
    hasIsolate := false
    hasTplCache := false
    hasContext := false
    argsSet := false
    parentThread := none
    parentPromiseId := 0
    exitValue := none
    exports := ⟨[], 0⟩
    promises := []
    timeoutData := []
    irqData := []
    timeouts := []
    queue := []
    irqTicksCounter := 0
    v8InterruptEnabled := false
    selfHandle := selfHandle }

/-- `Thread::SetTimeout`: records deadline `now + timeout_ms / msPerTick`
for the given timeout id. -/
def SetTimeout (now msPerTick : Nat) (s : ThreadState)
    (timeout_id timeout_ms : Nat) : ThreadState :=
  { s with timeouts := setA s.timeouts timeout_id (now + timeout_ms / msPerTick) }

/-- `Thread::SetUp`: a no-op for IDLE threads; otherwise asserts that no
isolate and no template cache exist yet (`RT_ASSERT(nullptr == iv8_)`,
`RT_ASSERT(nullptr == tpl_cache_)`), then allocates both. -/
def SetUp (s : ThreadState) : Except Fatal ThreadState :=
  if s.type_ = ThreadType.IDLE then .ok s
  else if s.hasIsolate then .error .assertionFailure
  else if s.hasTplCache then .error .assertionFailure
  else .ok { s with hasIsolate := true, hasTplCache := true }

/-- The transport data `Thread::TearDown` builds for the parent's resolve
message: empty when there is no exit value, otherwise the result of
`MoveValue` on the exit value (a serialization failure stays recorded in the
data). -/
def tearDownTransport : Option Value → TransportData
  | none => TransportData.empty
  | some v => (TransportData.moveValue v).1

/-- `Thread::TearDown`: asserts the thread is a set-up DEFAULT thread, then
unconditionally reaches through the parent-thread handle
(`RT_ASSERT(recv)` is fatal when there is no parent thread behind it),
serializes the exit value if any, pushes a FUNCTION_RETURN_RESOLVE message
carrying the stored parent promise id to the parent's queue, clears the
pending-operation tables, releases the persistent handles, destroys the
template cache and isolate, and marks the thread TERMINATED.  The result
pairs the final state with the `(parent handle, message)` push. -/
def TearDown (s : ThreadState) :
    Except Fatal (ThreadState × (Nat × ThreadMessage)) :=
  if s.type_ ≠ ThreadType.DEFAULT then .error .assertionFailure
  else if ¬ s.hasIsolate then .error .assertionFailure
  else if ¬ s.hasTplCache then .error .assertionFailure
  else
    match s.parentThread with
    | none => .error .assertionFailure
    | some p =>
      let msg : ThreadMessage :=
        { type_ := MsgType.FUNCTION_RETURN_RESOLVE
          data := tearDownTransport s.exitValue
          sender := some s.selfHandle
          recvIndex := s.parentPromiseId
          exportedFunc := none }
      let s' : ThreadState :=
        { s with
          timeoutData := []
          irqData := []
          promises := []
          hasContext := false
          argsSet := false
          exitValue := none
          hasTplCache := false
          hasIsolate := false
          type_ := ThreadType.TERMINATED }
      .ok (s', (p, msg))

/-- `Thread::TimerTick`: a no-op while preemption eligibility is off;
otherwise pre-increments the tick counter and, past the threshold of 7,
requests an asynchronous V8 interrupt and resets the counter.  The boolean
records whether an interrupt was requested by this tick. -/
def TimerTick (s : ThreadState) : ThreadState × Bool :=
  if ¬ s.v8InterruptEnabled then (s, false)
  else
    let c := s.irqTicksCounter + 1
    if c > 7 then ({ s with irqTicksCounter := 0 }, true)
    else ({ s with irqTicksCounter := c }, false)

/-- Delivers `n` consecutive `TimerTick` calls; returns the final state and
the number of interrupt requests issued. -/
def timerTicks : Nat → ThreadState → ThreadState × Nat
  | 0, s => (s, 0)
  | n + 1, s =>
    let r := TimerTick s
    let rest := timerTicks n r.1
    (rest.1, (if r.2 then 1 else 0) + rest.2)

/-! ## Timeout promotion (`Run` step 1)

`Run` loops `while (timeouts_.Elapsed(ticks_now)) { timeouts_.Take(); push }`.
The timeout tree's `Elapsed`/`Take` are outside this translation unit;
modelled from the spec: while the earliest pending timeout's deadline is at
or before the current tick, remove it and enqueue a TIMEOUT_EVENT message to
the thread's own queue. -/

/-- The TIMEOUT_EVENT message `Run` builds during promotion: empty payload,
empty sender handle, the timeout id as correlation index. -/
def timeoutMessage (tid : Nat) : ThreadMessage :=
  { type_ := MsgType.TIMEOUT_EVENT
    data := TransportData.empty
    sender := none
    recvIndex := tid
    exportedFunc := none }

/-- The earliest pending timeout (the entry with the smallest deadline). -/
def earliest : List (Nat × Nat) → Option (Nat × Nat)
  | [] => none
  | e :: ts =>
    match earliest ts with
    | none => some e
    | some b => if e.2 ≤ b.2 then some e else some b

/-- Remove the first occurrence of an entry from the timeout list. -/
def eraseFirst : List (Nat × Nat) → (Nat × Nat) → List (Nat × Nat)
  | [], _ => []
  | x :: xs, e => if x = e then xs else x :: eraseFirst xs e

/-- Modelled from the spec: the timeout-promotion while-loop.  The fuel is
the number of pending timeouts, which bounds the number of iterations (each
iteration removes one entry).  Returns the remaining timeouts and the
promoted TIMEOUT_EVENT messages, in promotion order. -/
def promoteLoop (now : Nat) : Nat → List (Nat × Nat) →
    List (Nat × Nat) × List ThreadMessage
  | 0, ts => (ts, [])
  | fuel + 1, ts =>
    match earliest ts with
    | none => (ts, [])
    | some e =>
      if e.2 ≤ now then
        let r := promoteLoop now fuel (eraseFirst ts e)
        (r.1, timeoutMessage e.1 :: r.2)
      else (ts, [])

/-- Timeout promotion at tick `now`: remaining timeouts and promoted
messages. -/
def promoted (now : Nat) (s : ThreadState) :
    List (Nat × Nat) × List ThreadMessage :=
  promoteLoop now s.timeouts.length s.timeouts

/-- The batch snapshot a `Run` at tick `now` takes: the promoted
TIMEOUT_EVENT messages are pushed onto the thread's own queue (the queue
endpoint appends, preserving arrival order), after the messages other
threads had already queued; then `TakeMessages` drains the whole queue. -/
def batchOf (now : Nat) (s : ThreadState) : List ThreadMessage :=
  s.queue ++ (promoted now s).2

/-- The thread state right after the batch snapshot: remaining timeouts
kept, queue drained. -/
def drainedState (now : Nat) (s : ThreadState) : ThreadState :=
  { s with timeouts := (promoted now s).1, queue := [] }

/-- The thread state entering the dispatch loop: the global context is
(lazily) created on the first non-empty batch. -/
def contextState (now : Nat) (s : ThreadState) : ThreadState :=
  { drainedState now s with hasContext := true }

/-! ## Message dispatch (`Run` switch) -/

/-- Dispatch of one message against the thread state: the `switch` in
`Thread::Run`.  Returns the updated state, the uncaught script exception of
this dispatch if one was thrown (caught by the surrounding `TryCatch`), and
the observable events, or a fatal assertion failure.

Table semantics modelled from the spec where the table implementations are
outside this translation unit: `TakePromise` and `TakeTimeoutData` remove
(take) the entry for the id; `GetIRQData` looks the handler up without
removing it.  An absent entry yields an empty local, on which the dispatch
site's own assertions (`resolver` construction, `RT_ASSERT(fnv->IsFunction())`)
are fatal. -/
def dispatchMessage (eng : Engine) (s : ThreadState) (m : ThreadMessage) :
    Except Fatal (ThreadState × Option ExnInfo × List Event) :=
  match m.type_ with
  | .SET_ARGUMENTS_NOPARENT =>
    if s.argsSet then .error .assertionFailure
    else
      match m.data.unpack with
      | none => .error .assertionFailure
      | some v => .ok ({ s with argsSet := true }, none, [.setArgs v])
  | .SET_ARGUMENTS =>
    if s.argsSet then .error .assertionFailure
    else
      match m.data.unpack with
      | none => .error .assertionFailure
      | some v =>
        .ok ({ s with argsSet := true, parentThread := m.sender,
                      parentPromiseId := m.recvIndex }, none, [.setArgs v])
  | .EVALUATE =>
    match m.data.unpack with
    | none => .error .assertionFailure
    | some v =>
      match eng.compileOk (valueToString v) with
      | true =>
        match eng.run (.evaluate (valueToString v)) with
        | .ok => .ok (s, none, [.evaluated (valueToString v)])
        | .threw e => .ok (s, some e, [.evaluated (valueToString v)])
      | false => .ok (s, none, [])
  | .FUNCTION_CALL =>
    match m.data.unpack with
    | none => .error .assertionFailure
    | some v =>
      match m.exportedFunc with
      | none => .error .assertionFailure
      | some ef =>
        match s.exports.Get ef.1 ef.2 with
        | .error f => .error f
        | .ok res =>
          match res with
          | none =>
            match eng.run (.callWrapper .nullV m.sender v m.recvIndex) with
            | .ok => .ok (s, none, [.invokedWrapper .nullV m.sender v m.recvIndex])
            | .threw e => .ok (s, some e, [.invokedWrapper .nullV m.sender v m.recvIndex])
          | some fv =>
            match fv.isFunction with
            | true =>
              match eng.run (.callWrapper fv m.sender v m.recvIndex) with
              | .ok => .ok (s, none, [.invokedWrapper fv m.sender v m.recvIndex])
              | .threw e => .ok (s, some e, [.invokedWrapper fv m.sender v m.recvIndex])
            | false => .error .assertionFailure
  | .FUNCTION_RETURN_RESOLVE =>
    match m.data.unpack with
    | none => .error .assertionFailure
    | some v =>
      match lookupA s.promises m.recvIndex with
      | none => .error .assertionFailure
      | some rid =>
        let s' := { s with promises := removeA s.promises m.recvIndex }
        match eng.run (.resolveCall rid v) with
        | .ok => .ok (s', none, [.resolvedPromise m.recvIndex v])
        | .threw e => .ok (s', some e, [.resolvedPromise m.recvIndex v])
  | .FUNCTION_RETURN_REJECT =>
    match m.data.unpack with
    | none => .error .assertionFailure
    | some v =>
      match lookupA s.promises m.recvIndex with
      | none => .error .assertionFailure
      | some rid =>
        let s' := { s with promises := removeA s.promises m.recvIndex }
        match eng.run (.rejectCall rid v) with
        | .ok => .ok (s', none, [.rejectedPromise m.recvIndex v])
        | .threw e => .ok (s', some e, [.rejectedPromise m.recvIndex v])
  | .TIMEOUT_EVENT =>
    match lookupA s.timeoutData m.recvIndex with
    | none => .error .assertionFailure
    | some fv =>
      match fv.isFunction with
      | true =>
        let s' := { s with timeoutData := removeA s.timeoutData m.recvIndex }
        match eng.run (.timeoutCall fv) with
        | .ok => .ok (s', none, [.invokedTimeoutHandler m.recvIndex fv])
        | .threw e => .ok (s', some e, [.invokedTimeoutHandler m.recvIndex fv])
      | false => .error .assertionFailure
  | .IRQ_RAISE =>
    match lookupA s.irqData m.recvIndex with
    | none => .error .assertionFailure
    | some fv =>
      match fv.isFunction with
      | true =>
        match eng.run (.irqCall fv) with
        | .ok => .ok (s, none, [.invokedIrqHandler m.recvIndex fv])
        | .threw e => .ok (s, some e, [.invokedIrqHandler m.recvIndex fv])
      | false => .error .assertionFailure
  | .EMPTY => .ok (s, none, [])

/-- The dispatch loop over one batch, threading the `TryCatch` state: a new
uncaught exception replaces the held one; a dispatch that throws nothing
leaves the held exception in place (the `TryCatch` spans the whole loop). -/
def dispatchBatch (eng : Engine) :
    ThreadState → Option ExnInfo → List ThreadMessage →
    Except Fatal (ThreadState × Option ExnInfo × List Event)
  | s, exn, [] => .ok (s, exn, [])
  | s, exn, m :: ms =>
    match dispatchMessage eng s m with
    | .error f => .error f
    | .ok (s', exn', evs) =>
      match dispatchBatch eng s' (match exn' with
        | some e => some e
        | none => exn) ms with
      | .error f => .error f
      | .ok (s'', exn'', evs') => .ok (s'', exn'', evs ++ evs')

/-- The result of one `Run` call: the final state, the returned boolean
("should this thread keep running"), and the observable events. -/
structure RunResult where
  state : ThreadState
  keepRunning : Bool
  events : List Event
deriving DecidableEq, Repr

/-- `Thread::Run` at tick `now`: asserts the thread is not TERMINATED;
returns true immediately for IDLE threads; asserts the isolate and template
cache exist; promotes elapsed timeouts onto its own queue; snapshots the
batch; returns true at once when the batch is empty; otherwise lazily
creates the context, dispatches every message of the batch in order, then —
if the liveness reference count is zero or the termination flag is set —
latches the termination flag and returns false; otherwise logs any uncaught
script exception caught during the batch and returns true. -/
def Run (eng : Engine) (now : Nat) (s : ThreadState) : Except Fatal RunResult :=
  if s.type_ = ThreadType.TERMINATED then .error .assertionFailure
  else if s.type_ = ThreadType.IDLE then .ok ⟨s, true, []⟩
  else if ¬ s.hasIsolate then .error .assertionFailure
  else if ¬ s.hasTplCache then .error .assertionFailure
  else
    if (batchOf now s).isEmpty then .ok ⟨drainedState now s, true, []⟩
    else
      match dispatchBatch eng (contextState now s) none (batchOf now s) with
      | .error f => .error f
      | .ok (s3, exn, evs) =>
        if s3.refCount = 0 ∨ s3.terminate then
          .ok ⟨{ s3 with terminate := true }, false, evs⟩
        else
          match exn with
          | some e => .ok ⟨s3, true, evs ++ [Event.loggedUncaught e]⟩
          | none => .ok ⟨s3, true, evs⟩

/-! ## Example engines and states used by witnesses and counterexamples -/

/-- An engine whose every compilation succeeds and every invocation
completes normally. -/
def quietEngine : Engine := ⟨fun _ => true, fun _ => Outcome.ok⟩

/-- An engine whose every script invocation throws an uncaught exception. -/
def throwingEngine : Engine := ⟨fun _ => true, fun _ => Outcome.threw ⟨"boom", none⟩⟩

/-! ## Helper lemmas: export table -/

/-- Apply `FunctionExports::Add` for each value of a list, in order. -/
def addAll (ex : FunctionExports) : List Value → FunctionExports
  | [] => ex
  | v :: vs => addAll (ex.Add v).2 vs

theorem addAll_getElem? (vs : List Value) :
    ∀ (ex : FunctionExports) (k : Nat), k < ex.data.length →
      (addAll ex vs).data[k]? = ex.data[k]? := by
  induction vs with
  | nil => intro ex k hk; rfl
  | cons v vs ih =>
    intro ex k hk
    have h2 : k < ((ex.Add v).2).data.length := by
      simp [FunctionExports.Add]
      omega
    have h3 : ((ex.Add v).2).data[k]? = ex.data[k]? := by
      simp only [FunctionExports.Add]
      exact List.getElem?_append_left hk
    calc (addAll ex (v :: vs)).data[k]?
        = ((ex.Add v).2).data[k]? := ih _ _ h2
      _ = ex.data[k]? := h3

/-! ## Helper lemmas: timeout promotion -/

theorem earliest_mem :
    ∀ (ts : List (Nat × Nat)) (e : Nat × Nat), earliest ts = some e → e ∈ ts := by
  intro ts
  induction ts with
  | nil => intro e h; cases h
  | cons x xs ih =>
    intro e h
    unfold earliest at h
    split at h
    · cases h
      exact List.mem_cons_self _ _
    · rename_i b hb
      split at h
      · cases h
        exact List.mem_cons_self _ _
      · cases h
        exact List.mem_cons_of_mem _ (ih _ hb)

theorem earliest_none : ∀ ts : List (Nat × Nat), earliest ts = none → ts = [] := by
  intro ts h
  cases ts with
  | nil => rfl
  | cons x xs =>
    unfold earliest at h
    split at h
    · cases h
    · split at h <;> cases h

theorem earliest_min :
    ∀ (ts : List (Nat × Nat)) (e : Nat × Nat), earliest ts = some e →
      ∀ x ∈ ts, e.2 ≤ x.2 := by
  intro ts
  induction ts with
  | nil => intro e h; cases h
  | cons x xs ih =>
    intro e h y hy
    unfold earliest at h
    split at h
    · rename_i hnone
      cases h
      rw [earliest_none xs hnone] at hy
      rcases List.mem_cons.mp hy with h1 | h1
      · subst h1; exact le_refl _
      · cases h1
    · rename_i b hb
      split at h
      · rename_i hle
        cases h
        rcases List.mem_cons.mp hy with h1 | h1
        · subst h1; exact le_refl _
        · exact le_trans hle (ih _ hb y h1)
      · rename_i hle
        cases h
        rcases List.mem_cons.mp hy with h1 | h1
        · subst h1; exact le_of_not_le hle
        · exact ih _ hb y h1

theorem length_eraseFirst_of_mem (e : Nat × Nat) :
    ∀ ts : List (Nat × Nat), e ∈ ts → (eraseFirst ts e).length + 1 = ts.length := by
  intro ts
  induction ts with
  | nil => intro h; cases h
  | cons x xs ih =>
    intro h
    by_cases hx : x = e
    · simp [eraseFirst, hx]
    · have hm : e ∈ xs := by
        rcases List.mem_cons.mp h with h1 | h1
        · exact absurd h1.symm hx
        · exact h1
      simp [eraseFirst, hx, ← ih hm]

theorem mem_eraseFirst_of_ne (e y : Nat × Nat) (hne : y ≠ e) :
    ∀ ts : List (Nat × Nat), y ∈ ts → y ∈ eraseFirst ts e := by
  intro ts
  induction ts with
  | nil => intro h; cases h
  | cons x xs ih =>
    intro h
    by_cases hx : x = e
    · subst hx
      rcases List.mem_cons.mp h with h1 | h1
      · exact absurd h1 hne
      · simpa [eraseFirst] using h1
    · rcases List.mem_cons.mp h with h1 | h1
      · subst h1
        simp [eraseFirst, hx]
      · simp only [eraseFirst, if_neg hx, List.mem_cons]
        exact Or.inr (ih h1)

/-- Every pending timeout whose deadline has elapsed is promoted by the
while-loop (with fuel at least the number of pending timeouts). -/
theorem promoteLoop_complete (now : Nat) :
    ∀ (fuel : Nat) (ts : List (Nat × Nat)) (tid w : Nat),
      ts.length ≤ fuel → (tid, w) ∈ ts → w ≤ now →
      timeoutMessage tid ∈ (promoteLoop now fuel ts).2 := by
  intro fuel
  induction fuel with
  | zero =>
    intro ts tid w hlen hmem hw
    have h0 : ts = [] := List.length_eq_zero.mp (Nat.le_zero.mp hlen)
    subst h0
    cases hmem
  | succ fuel ih =>
    intro ts tid w hlen hmem hw
    unfold promoteLoop
    split
    · rename_i hnone
      rw [earliest_none ts hnone] at hmem
      cases hmem
    · rename_i e he
      have hele : e.2 ≤ now :=
        le_trans (earliest_min ts e he (tid, w) hmem) hw
      rw [if_pos hele]
      by_cases heq : (tid, w) = e
      · rw [← heq]
        exact List.mem_cons_self _ _
      · have hm' : (tid, w) ∈ eraseFirst ts e :=
          mem_eraseFirst_of_ne e (tid, w) heq ts hmem
        have hlen' : (eraseFirst ts e).length ≤ fuel := by
          have := length_eraseFirst_of_mem e ts (earliest_mem ts e he)
          omega
        exact List.mem_cons_of_mem _ (ih _ tid w hlen' hm' hw)

/-! ## Helper lemmas: dispatch preserves the liveness-control fields

No case of the dispatch switch writes `ref_count_`, `terminate_` or
`type_`. -/

theorem dispatchMessage_preserves (eng : Engine) (s : ThreadState)
    (m : ThreadMessage) (x : ThreadState × Option ExnInfo × List Event)
    (h : dispatchMessage eng s m = .ok x) :
    x.1.refCount = s.refCount ∧ x.1.terminate = s.terminate ∧
    x.1.type_ = s.type_ := by
  unfold dispatchMessage at h
  repeat' split at h
  all_goals cases h
  all_goals exact ⟨rfl, rfl, rfl⟩

theorem dispatchBatch_preserves (eng : Engine) :
    ∀ (ms : List ThreadMessage) (s : ThreadState) (exn : Option ExnInfo)
      (x : ThreadState × Option ExnInfo × List Event),
      dispatchBatch eng s exn ms = .ok x →
      x.1.refCount = s.refCount ∧ x.1.terminate = s.terminate ∧
      x.1.type_ = s.type_ := by
  intro ms
  induction ms with
  | nil =>
    intro s exn x h
    unfold dispatchBatch at h
    cases h
    exact ⟨rfl, rfl, rfl⟩
  | cons m ms ih =>
    intro s exn x h
    unfold dispatchBatch at h
    split at h
    · cases h
    · rename_i s' exn' evs hy
      split at h
      · cases h
      · rename_i s'' exn'' evs' hz
        cases h
        have h1 := dispatchMessage_preserves eng s m _ hy
        have h2 := ih s' _ _ hz
        exact ⟨h2.1.trans h1.1, h2.2.1.trans h1.2.1, h2.2.2.trans h1.2.2⟩

/-! ## Claim C4: export-table handle/generation semantics -/

/-- C4: for every value added to the export table, the returned handle's
`(index, generation id)` pair resolves via `Get` to that value, and for the
same index `Get` with any other generation id returns an empty result, for
all subsequent `Add` calls (no later `Add` ever makes a stale generation id
resolve again). -/
theorem exports_add_get_generation (ex : FunctionExports) (v : Value)
    (vs : List Value) :
    (addAll (ex.Add v).2 vs).Get (ex.Add v).1.1 (ex.Add v).1.2 =
      .ok (some v) ∧
    ∀ g, g ≠ (ex.Add v).1.2 →
      (addAll (ex.Add v).2 vs).Get (ex.Add v).1.1 g = .ok none := by
  have hbase : ((ex.Add v).2).data[ex.data.length]? =
      some (ex.export_id + 1, v) := by
    simp only [FunctionExports.Add]
    exact List.getElem?_concat_length _ _
  have hlen : ex.data.length < ((ex.Add v).2).data.length := by
    simp [FunctionExports.Add]
  have hget : (addAll (ex.Add v).2 vs).data[ex.data.length]? =
      some (ex.export_id + 1, v) :=
    (addAll_getElem? vs _ _ hlen).trans hbase
  constructor
  · show (addAll (ex.Add v).2 vs).Get ex.data.length (ex.export_id + 1) =
      .ok (some v)
    unfold FunctionExports.Get
    rw [hget]
    simp
  · intro g hg
    have hg' : g ≠ ex.export_id + 1 := hg
    show (addAll (ex.Add v).2 vs).Get ex.data.length g = .ok none
    unfold FunctionExports.Get
    rw [hget]
    simp [Ne.symm hg']

/-- Witness for `exports_add_get_generation` at a concrete table. -/
theorem exports_add_get_generation_witness :
    (addAll ((FunctionExports.mk [] 0).Add (Value.func 5)).2 [Value.nullV]).Get
        ((FunctionExports.mk [] 0).Add (Value.func 5)).1.1
        ((FunctionExports.mk [] 0).Add (Value.func 5)).1.2 =
      .ok (some (Value.func 5)) ∧
    (addAll ((FunctionExports.mk [] 0).Add (Value.func 5)).2 [Value.nullV]).Get
        ((FunctionExports.mk [] 0).Add (Value.func 5)).1.1 7 = .ok none := by
  have h := exports_add_get_generation (FunctionExports.mk [] 0)
    (Value.func 5) [Value.nullV]
  exact ⟨h.1, h.2 7 (by decide)⟩

/-! ## Claim C5: preemption tick counter -/

/-- C5: starting from interrupt-tick counter 0 with preemption eligibility
enabled, 8 consecutive `TimerTick` calls issue exactly one asynchronous
interrupt request and leave the counter at 0; a `TimerTick` with eligibility
disabled changes nothing and issues no request. -/
theorem timer_tick_preemption (s s' : ThreadState)
    (h0 : s.irqTicksCounter = 0) (hen : s.v8InterruptEnabled = true)
    (hdis : s'.v8InterruptEnabled = false) :
    (timerTicks 8 s).2 = 1 ∧ (timerTicks 8 s).1.irqTicksCounter = 0 ∧
    TimerTick s' = (s', false) := by
  refine ⟨?_, ?_, ?_⟩
  · simp [timerTicks, TimerTick, hen, h0]
  · simp [timerTicks, TimerTick, hen, h0]
  · simp [TimerTick, hdis]

/-- Witness for `timer_tick_preemption` at a concrete thread. -/
theorem timer_tick_preemption_witness :
    (timerTicks 8 { Thread.init ThreadType.DEFAULT 0 with
        v8InterruptEnabled := true }).2 = 1 ∧
    (timerTicks 8 { Thread.init ThreadType.DEFAULT 0 with
        v8InterruptEnabled := true }).1.irqTicksCounter = 0 ∧
    TimerTick (Thread.init ThreadType.DEFAULT 0) =
      (Thread.init ThreadType.DEFAULT 0, false) :=
  timer_tick_preemption _ _ rfl rfl rfl

/-! ## Claim C9: lifecycle double-initialization is fatal -/

/-- C9: a second `SetUp` on a non-IDLE thread whose isolate already exists
hits a fatal assertion (`RT_ASSERT(nullptr == iv8_)`), and a second
`TearDown` after a first `TearDown` has set the type to TERMINATED hits a
fatal assertion (`RT_ASSERT(ThreadType::DEFAULT == type_)`). -/
theorem lifecycle_double_setup_teardown_fatal :
    (∀ s s₁ : ThreadState, SetUp s = .ok s₁ → s.type_ ≠ ThreadType.IDLE →
       SetUp s₁ = .error .assertionFailure) ∧
    (∀ (s : ThreadState) (r : ThreadState × Nat × ThreadMessage),
       TearDown s = .ok r →
       r.1.type_ = ThreadType.TERMINATED ∧
       TearDown r.1 = .error .assertionFailure) := by
  constructor
  · intro s s₁ h hni
    unfold SetUp at h
    rw [if_neg hni] at h
    split at h
    · cases h
    · split at h
      · cases h
      · cases h
        simp [SetUp, hni]
  · intro s r h
    unfold TearDown at h
    repeat' split at h
    all_goals cases h
    refine ⟨rfl, ?_⟩
    simp [TearDown]

/-- Witness for `lifecycle_double_setup_teardown_fatal` at concrete
threads. -/
theorem lifecycle_double_setup_teardown_fatal_witness :
    SetUp { Thread.init ThreadType.DEFAULT 0 with
              hasIsolate := true, hasTplCache := true } =
        Except.error Fatal.assertionFailure ∧
    TearDown { Thread.init ThreadType.DEFAULT 0 with
                 parentThread := some 3, type_ := ThreadType.TERMINATED } =
        Except.error Fatal.assertionFailure := by
  constructor
  · exact lifecycle_double_setup_teardown_fatal.1
      (Thread.init ThreadType.DEFAULT 0) _ rfl (by decide)
  · exact (lifecycle_double_setup_teardown_fatal.2
      { Thread.init ThreadType.DEFAULT 0 with
          hasIsolate := true, hasTplCache := true, parentThread := some 3 }
      _ rfl).2

/-! ## Claim C2: TearDown's push to the parent queue -/

/-- C2 (amended): `TearDown` of a set-up DEFAULT thread unconditionally
reaches through the parent handle: with a parent it enqueues exactly one
FUNCTION_RETURN_RESOLVE message carrying the stored parent promise id to
that parent's queue; without a parent the `RT_ASSERT(recv)` branch is a
fatal assertion failure, so TearDown never completes at all (rather than
completing without touching another thread's queue). -/
theorem teardown_parent_resolve_push (s : ThreadState) (p : Nat)
    (hT : s.type_ = ThreadType.DEFAULT) (hI : s.hasIsolate = true)
    (hC : s.hasTplCache = true) :
    (s.parentThread = some p →
       TearDown s = .ok
        ({ s with timeoutData := [], irqData := [], promises := [],
                  hasContext := false, argsSet := false, exitValue := none,
                  hasTplCache := false, hasIsolate := false,
                  type_ := ThreadType.TERMINATED }, (p,
          { type_ := MsgType.FUNCTION_RETURN_RESOLVE
            data := tearDownTransport s.exitValue
            sender := some s.selfHandle
            recvIndex := s.parentPromiseId
            exportedFunc := none }))) ∧
    (s.parentThread = none → TearDown s = .error .assertionFailure) := by
  constructor
  · intro hp
    simp [TearDown, hT, hI, hC, hp]
  · intro hp
    simp [TearDown, hT, hI, hC, hp]

/-- C2 counterexample: a parentless set-up DEFAULT thread — `TearDown` hits
the fatal `RT_ASSERT(recv)` branch; it does not complete without touching
another thread's queue. -/
theorem teardown_without_parent_fatal_counterexample :
    ({ Thread.init ThreadType.DEFAULT 0 with
         hasIsolate := true, hasTplCache := true } : ThreadState).parentThread
        = none ∧
    TearDown { Thread.init ThreadType.DEFAULT 0 with
                 hasIsolate := true, hasTplCache := true } =
      Except.error Fatal.assertionFailure :=
  ⟨rfl, rfl⟩

/-- Witness for `teardown_parent_resolve_push` at a concrete thread with a
parent. -/
theorem teardown_parent_resolve_push_witness :
    TearDown { Thread.init ThreadType.DEFAULT 7 with
                 hasIsolate := true, hasTplCache := true,
                 parentThread := some 3, parentPromiseId := 42 } =
      Except.ok ({ Thread.init ThreadType.DEFAULT 7 with
                     parentThread := some 3, parentPromiseId := 42,
                     type_ := ThreadType.TERMINATED },
        (3, { type_ := MsgType.FUNCTION_RETURN_RESOLVE
              data := TransportData.empty
              sender := some 7
              recvIndex := 42
              exportedFunc := none })) :=
  (teardown_parent_resolve_push
    { Thread.init ThreadType.DEFAULT 7 with
        hasIsolate := true, hasTplCache := true,
        parentThread := some 3, parentPromiseId := 42 }
    3 rfl rfl rfl).1 rfl

/-! ## Claim C3: serialization failure of the exit value is reported -/

/-- C3: when serializing the exit value during `TearDown` fails (the value
is non-transferable), `MoveValue` reports a serialization error and the
failure is carried inside the FUNCTION_RETURN_RESOLVE message pushed to the
parent — not silently dropped. -/
theorem teardown_serialize_failure_reported (s : ThreadState) (p n : Nat)
    (hT : s.type_ = ThreadType.DEFAULT) (hI : s.hasIsolate = true)
    (hC : s.hasTplCache = true) (hp : s.parentThread = some p)
    (hx : s.exitValue = some (Value.nontransferable n)) :
    (TransportData.moveValue (Value.nontransferable n)).2 = some n ∧
    TearDown s = .ok
      ({ s with timeoutData := [], irqData := [], promises := [],
                hasContext := false, argsSet := false, exitValue := none,
                hasTplCache := false, hasIsolate := false,
                type_ := ThreadType.TERMINATED }, (p,
        { type_ := MsgType.FUNCTION_RETURN_RESOLVE
          data := TransportData.failure n
          sender := some s.selfHandle
          recvIndex := s.parentPromiseId
          exportedFunc := none })) := by
  refine ⟨rfl, ?_⟩
  simp [TearDown, hT, hI, hC, hp, tearDownTransport, hx,
    TransportData.moveValue]

/-- Witness for `teardown_serialize_failure_reported` at a concrete
thread. -/
theorem teardown_serialize_failure_reported_witness :
    TearDown { Thread.init ThreadType.DEFAULT 7 with
                 hasIsolate := true, hasTplCache := true,
                 parentThread := some 3, parentPromiseId := 42,
                 exitValue := some (Value.nontransferable 9) } =
      Except.ok ({ Thread.init ThreadType.DEFAULT 7 with
                     parentThread := some 3, parentPromiseId := 42,
                     type_ := ThreadType.TERMINATED },
        (3, { type_ := MsgType.FUNCTION_RETURN_RESOLVE
              data := TransportData.failure 9
              sender := some 7
              recvIndex := 42
              exportedFunc := none })) :=
  (teardown_serialize_failure_reported
    { Thread.init ThreadType.DEFAULT 7 with
        hasIsolate := true, hasTplCache := true,
        parentThread := some 3, parentPromiseId := 42,
        exitValue := some (Value.nontransferable 9) }
    3 9 rfl rfl rfl rfl rfl).2

/-! ## Claim C1: the liveness check runs only after a non-empty batch -/

/-- A placeholder EMPTY message. -/
def emptyMessage : ThreadMessage :=
  { type_ := MsgType.EMPTY, data := TransportData.empty, sender := none,
    recvIndex := 0, exportedFunc := none }

/-- An EVALUATE message carrying source text `src`. -/
def evaluateMessage (src : String) : ThreadMessage :=
  { type_ := MsgType.EVALUATE, data := TransportData.value (Value.str src),
    sender := none, recvIndex := 0, exportedFunc := none }

/-- A set-up DEFAULT thread with the termination flag already set and
nothing queued. -/
def cexC1 : ThreadState :=
  { Thread.init ThreadType.DEFAULT 0 with
      hasIsolate := true, hasTplCache := true, terminate := true }

/-- The same thread with one EMPTY message queued. -/
def cexC1b : ThreadState := { cexC1 with queue := [emptyMessage] }

/-- C1 (amended): for a set-up DEFAULT thread whose liveness reference
count is zero or whose termination flag is set, a `Run` that takes a
non-empty batch dispatches the entire batch and then returns false; a `Run`
whose batch is empty returns true without performing the liveness check. -/
theorem run_returns_false_after_nonempty_batch (eng : Engine) (now : Nat)
    (s : ThreadState) (r : RunResult)
    (hrun : Run eng now s = .ok r)
    (hT : s.type_ = ThreadType.DEFAULT)
    (hlive : s.refCount = 0 ∨ s.terminate = true) :
    (batchOf now s ≠ [] →
       r.keepRunning = false ∧
       ∃ y, dispatchBatch eng (contextState now s) none (batchOf now s) =
              .ok y ∧ r.events = y.2.2) ∧
    (batchOf now s = [] → r.keepRunning = true) := by
  unfold Run at hrun
  rw [hT] at hrun
  rw [if_neg (by decide), if_neg (by decide)] at hrun
  split at hrun
  · cases hrun
  · split at hrun
    · cases hrun
    · split at hrun
      · rename_i hbe
        cases hrun
        have hb : batchOf now s = [] := by simpa using hbe
        constructor
        · intro hne
          exact absurd hb hne
        · intro _
          rfl
      · rename_i hbe
        split at hrun
        · cases hrun
        · rename_i s3 exn evs hd
          have hp := dispatchBatch_preserves eng _ _ _ _ hd
          have hcond : s3.refCount = 0 ∨ s3.terminate = true := by
            rcases hlive with h1 | h1
            · exact Or.inl (hp.1.trans h1)
            · exact Or.inr (hp.2.1.trans h1)
          rw [if_pos hcond] at hrun
          cases hrun
          constructor
          · intro _
            exact ⟨rfl, ⟨(s3, exn, evs), hd, rfl⟩⟩
          · intro hb
            exact absurd (by rw [hb]; rfl) hbe

/-- C1 counterexample: a set-up DEFAULT thread whose termination flag is
already set but whose batch is empty — `Run` returns true without the
liveness check, contradicting the claim's "also when the batch is empty"
part. -/
theorem run_empty_batch_skips_liveness_counterexample :
    cexC1.terminate = true ∧ cexC1.type_ = ThreadType.DEFAULT ∧
    batchOf 0 cexC1 = [] ∧
    Run quietEngine 0 cexC1 = Except.ok ⟨drainedState 0 cexC1, true, []⟩ :=
  ⟨rfl, rfl, rfl, rfl⟩

/-- Witness for `run_returns_false_after_nonempty_batch` at a concrete
thread with one queued message. -/
theorem run_returns_false_after_nonempty_batch_witness :
    (Run quietEngine 0 cexC1b).map RunResult.keepRunning = Except.ok false := by
  have hr : Run quietEngine 0 cexC1b =
      Except.ok ⟨{ contextState 0 cexC1b with terminate := true }, false, []⟩ :=
    rfl
  have h := (run_returns_false_after_nonempty_batch quietEngine 0 cexC1b _
    hr rfl (Or.inr rfl)).1 (by decide)
  rw [hr]
  exact congrArg Except.ok h.1

/-! ## Claim C6: timeout promotion and batch ordering -/

/-- A set-up DEFAULT thread with one queued EVALUATE message from another
thread and one elapsed timeout (id 5, deadline 0) with its callback
registered. -/
def cexC6 : ThreadState :=
  { Thread.init ThreadType.DEFAULT 0 with
      hasIsolate := true, hasTplCache := true, refCount := 1,
      queue := [evaluateMessage "a"],
      timeouts := [(5, 0)],
      timeoutData := [(5, Value.func 1)] }

/-- C6 (amended): within one `Run`, every elapsed timeout is promoted into
a TIMEOUT_EVENT message on the thread's own queue before the batch snapshot
is taken, so it is visible in that same batch — but the promoted messages
are appended after the messages already queued from other threads (the
queue endpoint appends), not ordered before them. -/
theorem timeout_promoted_visible_in_batch (now : Nat) (s : ThreadState)
    (tid w : Nat) (hmem : (tid, w) ∈ s.timeouts) (hw : w ≤ now) :
    timeoutMessage tid ∈ batchOf now s ∧
    batchOf now s = s.queue ++ (promoted now s).2 := by
  refine ⟨?_, rfl⟩
  have h := promoteLoop_complete now s.timeouts.length s.timeouts tid w
    le_rfl hmem hw
  unfold batchOf
  exact List.mem_append_right _ h

/-- C6 counterexample: with one message already queued from another thread
and one elapsed timeout, the batch snapshot places the promoted
TIMEOUT_EVENT after the already-queued message, and `Run` dispatches them in
that order — refuting "ordered before messages that were already queued". -/
theorem timeout_promoted_after_queued_counterexample :
    cexC6.queue = [evaluateMessage "a"] ∧
    cexC6.timeouts = [(5, 0)] ∧
    batchOf 0 cexC6 = [evaluateMessage "a", timeoutMessage 5] ∧
    (Run quietEngine 0 cexC6).map RunResult.events =
      Except.ok [Event.evaluated "a",
        Event.invokedTimeoutHandler 5 (Value.func 1)] :=
  ⟨rfl, rfl, rfl, rfl⟩

/-- Witness for `timeout_promoted_visible_in_batch` at a concrete thread. -/
theorem timeout_promoted_visible_in_batch_witness :
    timeoutMessage 5 ∈ batchOf 0 cexC6 ∧
    batchOf 0 cexC6 = cexC6.queue ++ (promoted 0 cexC6).2 :=
  timeout_promoted_visible_in_batch 0 cexC6 5 0 (by decide) (by decide)

/-! ## Claim C7: uncaught script exceptions are caught and logged -/

/-- A set-up DEFAULT thread, liveness already zero, with one EVALUATE
message queued whose script will throw. -/
def cexC7 : ThreadState :=
  { Thread.init ThreadType.DEFAULT 0 with
      hasIsolate := true, hasTplCache := true,
      queue := [evaluateMessage "boom"] }

/-- The same thread, kept alive by one liveness reference. -/
def cexC7b : ThreadState := { cexC7 with refCount := 1 }

/-- C7 (amended): an uncaught script exception thrown while dispatching one
message of a batch is caught: the rest of the batch is still dispatched,
and the exception does not make `Run` report that the thread should stop.
It is logged (with the source location carried in the exception info, when
available) only when the thread is not terminating: a `Run` that returns
false skips the logging. -/
theorem batch_exception_nonfatal_logging (eng : Engine) (now : Nat)
    (s : ThreadState) (r : RunResult) (s3 : ThreadState) (e : ExnInfo)
    (evs : List Event)
    (hd : dispatchBatch eng (contextState now s) none (batchOf now s) =
      .ok (s3, some e, evs))
    (hrun : Run eng now s = .ok r)
    (hT : s.type_ = ThreadType.DEFAULT) :
    (∀ (s₀ : ThreadState) (exn : Option ExnInfo) (m : ThreadMessage)
       (ms : List ThreadMessage) (s' : ThreadState) (e' : ExnInfo)
       (evs₀ : List Event),
       dispatchMessage eng s₀ m = .ok (s', some e', evs₀) →
       dispatchBatch eng s₀ exn (m :: ms) =
         (dispatchBatch eng s' (some e') ms).map
           (fun y => (y.1, y.2.1, evs₀ ++ y.2.2))) ∧
    (¬ (s3.refCount = 0 ∨ s3.terminate = true) →
       r.keepRunning = true ∧ r.events = evs ++ [Event.loggedUncaught e]) ∧
    ((s3.refCount = 0 ∨ s3.terminate = true) →
       r.keepRunning = false ∧ r.events = evs) := by
  have hne : (batchOf now s).isEmpty ≠ true := by
    intro hbe
    rw [show batchOf now s = [] from by simpa using hbe] at hd
    simp [dispatchBatch] at hd
  unfold Run at hrun
  rw [hT] at hrun
  rw [if_neg (by decide), if_neg (by decide), if_neg hne, hd] at hrun
  split at hrun
  · cases hrun
  · split at hrun
    · cases hrun
    · dsimp only at hrun
      refine ⟨?_, ?_, ?_⟩
      · intro s₀ exn m ms s' e' evs₀ hm
        cases hb : dispatchBatch eng s' (some e') ms with
        | error f => simp [dispatchBatch, hm, hb, Except.map]
        | ok y => simp [dispatchBatch, hm, hb, Except.map]
      · intro hc
        rw [if_neg hc] at hrun
        cases hrun
        exact ⟨rfl, rfl⟩
      · intro hc
        rw [if_pos hc] at hrun
        cases hrun
        exact ⟨rfl, rfl⟩

/-- C7 counterexample: an exception is thrown during the batch of a thread
whose liveness is zero — `Run` returns false and the exception is never
logged, refuting "this logging occurs for every Run in which such an
exception was thrown". -/
theorem exception_unlogged_when_terminating_counterexample :
    throwingEngine.run (ScriptCall.evaluate "boom") =
      Outcome.threw ⟨"boom", none⟩ ∧
    (Run throwingEngine 0 cexC7).map
        (fun r => (r.keepRunning, r.events)) =
      Except.ok (false, [Event.evaluated "boom"]) :=
  ⟨rfl, rfl⟩

/-- Witness for `batch_exception_nonfatal_logging` at a concrete thread
that stays alive: the exception is logged after the batch. -/
theorem batch_exception_nonfatal_logging_witness :
    (Run throwingEngine 0 cexC7b).map (fun r => (r.keepRunning, r.events)) =
      Except.ok (true, [Event.evaluated "boom",
        Event.loggedUncaught ⟨"boom", none⟩]) := by
  have hd : dispatchBatch throwingEngine (contextState 0 cexC7b) none
      (batchOf 0 cexC7b) =
      .ok (contextState 0 cexC7b, some ⟨"boom", none⟩,
        [Event.evaluated "boom"]) := rfl
  have hr : Run throwingEngine 0 cexC7b =
      Except.ok ⟨contextState 0 cexC7b, true,
        [Event.evaluated "boom", Event.loggedUncaught ⟨"boom", none⟩]⟩ := rfl
  have h := (batch_exception_nonfatal_logging throwingEngine 0 cexC7b _ _ _ _
    hd hr rfl).2.1 (by decide)
  rw [hr]
  exact congrArg Except.ok (Prod.ext_iff.mpr ⟨h.1, h.2⟩)

/-! ## Claim C8: take vs. lookup semantics of the pending-operation tables -/

/-- An IRQ_RAISE message for correlation id 3. -/
def irqMsg8 : ThreadMessage :=
  { type_ := MsgType.IRQ_RAISE, data := TransportData.empty, sender := none,
    recvIndex := 3, exportedFunc := none }

/-- A FUNCTION_RETURN_RESOLVE message for correlation id 3 with a null
payload. -/
def resolveMsg8 : ThreadMessage :=
  { type_ := MsgType.FUNCTION_RETURN_RESOLVE,
    data := TransportData.value Value.nullV, sender := none,
    recvIndex := 3, exportedFunc := none }

/-- A thread with an interrupt handler registered under id 3. -/
def cexS8 : ThreadState :=
  { Thread.init ThreadType.DEFAULT 0 with irqData := [(3, Value.func 9)] }

/-- A thread with a pending promise registered under id 3. -/
def cexS8r : ThreadState :=
  { Thread.init ThreadType.DEFAULT 0 with promises := [(3, 11)] }

/-- A thread with a timeout callback registered under id 6. -/
def cexS8t : ThreadState :=
  { Thread.init ThreadType.DEFAULT 0 with
      timeoutData := [(6, Value.func 2)] }

/-- The result of dispatching `resolveMsg8` against `cexS8r`. -/
def cexX8 : ThreadState × Option ExnInfo × List Event :=
  ({ cexS8r with promises := [] }, none, [Event.resolvedPromise 3 Value.nullV])

/-- The result of dispatching `timeoutMessage 6` against `cexS8t`. -/
def cexX8t : ThreadState × Option ExnInfo × List Event :=
  ({ cexS8t with timeoutData := [] }, none,
    [Event.invokedTimeoutHandler 6 (Value.func 2)])

/-- C8: dispatching IRQ_RAISE looks the interrupt handler up without
removing it, so two IRQ_RAISE messages with the same id invoke the same
handler twice and leave the state unchanged; dispatching
FUNCTION_RETURN_RESOLVE or FUNCTION_RETURN_REJECT removes (takes) the
promise-table entry for its id exactly once; dispatching TIMEOUT_EVENT
removes the timeout callback for its id. -/
theorem dispatch_table_semantics (eng : Engine) (s : ThreadState)
    (m : ThreadMessage) :
    (∀ k, m.type_ = MsgType.IRQ_RAISE →
       lookupA s.irqData m.recvIndex = some (Value.func k) →
       dispatchBatch eng s none [m, m] =
         .ok (s, (match eng.run (ScriptCall.irqCall (Value.func k)) with
                  | .ok => none
                  | .threw e => some e),
           [Event.invokedIrqHandler m.recvIndex (Value.func k),
            Event.invokedIrqHandler m.recvIndex (Value.func k)])) ∧
    (∀ x, (m.type_ = MsgType.FUNCTION_RETURN_RESOLVE ∨
           m.type_ = MsgType.FUNCTION_RETURN_REJECT) →
       dispatchMessage eng s m = .ok x →
       x.1.promises = removeA s.promises m.recvIndex ∧
       lookupA x.1.promises m.recvIndex = none) ∧
    (∀ x, m.type_ = MsgType.TIMEOUT_EVENT →
       dispatchMessage eng s m = .ok x →
       x.1.timeoutData = removeA s.timeoutData m.recvIndex ∧
       lookupA x.1.timeoutData m.recvIndex = none) := by
  refine ⟨?_, ?_, ?_⟩
  · intro k ht hl
    cases ho : eng.run (ScriptCall.irqCall (Value.func k)) with
    | ok =>
      simp [dispatchBatch, dispatchMessage, ht, hl, Value.isFunction, ho]
    | threw e =>
      simp [dispatchBatch, dispatchMessage, ht, hl, Value.isFunction, ho]
  · intro x hty hm
    rcases hty with hty | hty <;>
      (simp only [dispatchMessage, hty] at hm
       repeat' split at hm
       all_goals cases hm
       all_goals exact ⟨rfl, lookupA_removeA _ _⟩)
  · intro x hty hm
    simp only [dispatchMessage, hty] at hm
    repeat' split at hm
    all_goals cases hm
    all_goals exact ⟨rfl, lookupA_removeA _ _⟩

/-- Witness for `dispatch_table_semantics` at concrete tables. -/
theorem dispatch_table_semantics_witness :
    dispatchBatch quietEngine cexS8 none [irqMsg8, irqMsg8] =
      .ok (cexS8, none, [Event.invokedIrqHandler 3 (Value.func 9),
                         Event.invokedIrqHandler 3 (Value.func 9)]) ∧
    (cexX8.1.promises = removeA cexS8r.promises 3 ∧
     lookupA cexX8.1.promises 3 = none) ∧
    (cexX8t.1.timeoutData = removeA cexS8t.timeoutData 6 ∧
     lookupA cexX8t.1.timeoutData 6 = none) := by
  refine ⟨?_, ?_, ?_⟩
  · exact (dispatch_table_semantics quietEngine cexS8 irqMsg8).1 9 rfl rfl
  · exact (dispatch_table_semantics quietEngine cexS8r resolveMsg8).2.1 cexX8
      (Or.inl rfl) rfl
  · exact (dispatch_table_semantics quietEngine cexS8t
      (timeoutMessage 6)).2.2 cexX8t rfl rfl

/-! ## Claim C10: the termination flag is a latch -/

/-- `Run` never clears a set termination flag. -/
theorem Run_keeps_terminate (eng : Engine) (now : Nat) (s : ThreadState)
    (r : RunResult) (h : Run eng now s = .ok r) (ht : s.terminate = true) :
    r.state.terminate = true := by
  unfold Run at h
  split at h
  · cases h
  · split at h
    · cases h
      exact ht
    · split at h
      · cases h
      · split at h
        · cases h
        · split at h
          · cases h
            exact ht
          · split at h
            · cases h
            · rename_i s3 exn evs hd
              have hp := dispatchBatch_preserves eng _ _ _ _ hd
              split at h
              · cases h
                rfl
              · split at h <;> cases h <;> exact hp.2.1.trans ht

/-- C10: whenever `Run` returns false it has first latched the termination
flag (and the thread is necessarily non-IDLE); no operation of the thread —
`TimerTick`, `SetTimeout`, `SetUp`, `TearDown`, `Run` — ever clears the
flag once set; consequently any later `Run` of that thread that takes a
non-empty batch also returns false. -/
theorem run_false_terminate_latch (eng eng' : Engine) (now now' : Nat) :
    (∀ s r, Run eng now s = .ok r → r.keepRunning = false →
       r.state.terminate = true ∧ r.state.type_ = s.type_ ∧
       s.type_ ≠ ThreadType.IDLE) ∧
    (∀ s, s.terminate = true →
       (TimerTick s).1.terminate = true ∧
       (∀ nw mpt tid ms, (SetTimeout nw mpt s tid ms).terminate = true) ∧
       (∀ s₁, SetUp s = .ok s₁ → s₁.terminate = true) ∧
       (∀ rr, TearDown s = .ok rr → rr.1.terminate = true) ∧
       (∀ r, Run eng' now' s = .ok r → r.state.terminate = true)) ∧
    (∀ s r, Run eng' now' s = .ok r → s.terminate = true →
       s.type_ ≠ ThreadType.IDLE → batchOf now' s ≠ [] →
       r.keepRunning = false) := by
  refine ⟨?_, ?_, ?_⟩
  · intro s r hrun hkr
    unfold Run at hrun
    split at hrun
    · cases hrun
    · split at hrun
      · cases hrun
        simp at hkr
      · split at hrun
        · cases hrun
        · split at hrun
          · cases hrun
          · split at hrun
            · cases hrun
              simp at hkr
            · split at hrun
              · cases hrun
              · rename_i s3 exn evs hd
                have hp := dispatchBatch_preserves eng _ _ _ _ hd
                split at hrun
                · cases hrun
                  exact ⟨rfl, hp.2.2, by assumption⟩
                · split at hrun <;> cases hrun <;> simp at hkr
  · intro s hterm
    refine ⟨?_, ?_, ?_, ?_, ?_⟩
    · simp only [TimerTick]
      split
      · exact hterm
      · split <;> exact hterm
    · intro nw mpt tid ms
      exact hterm
    · intro s₁ h
      unfold SetUp at h
      repeat' split at h
      all_goals cases h
      all_goals exact hterm
    · intro rr h
      unfold TearDown at h
      repeat' split at h
      all_goals cases h
      exact hterm
    · intro r hrun
      exact Run_keeps_terminate eng' now' s r hrun hterm
  · intro s r hrun hterm hnI hne
    unfold Run at hrun
    split at hrun
    · cases hrun
    · split at hrun
      · cases hrun
      · split at hrun
        · cases hrun
        · split at hrun
          · rename_i hbe
            exact absurd (by simpa using hbe) hne
          · split at hrun
            · cases hrun
            · rename_i s3 exn evs hd
              have hp := dispatchBatch_preserves eng' _ _ _ _ hd
              have hcond : s3.refCount = 0 ∨ s3.terminate = true :=
                Or.inr (hp.2.1.trans hterm)
              rw [if_pos hcond] at hrun
              cases hrun
              rfl

/-- Witness for `run_false_terminate_latch`: a first `Run` returns false
and latches the flag; the operations keep the flag; a second `Run` with a
queued message returns false again. -/
theorem run_false_terminate_latch_witness :
    ((Run quietEngine 0 { cexC1b with terminate := false, refCount := 0 }).map
        (fun r => (r.keepRunning, r.state.terminate)) =
      Except.ok (false, true)) ∧
    (TimerTick cexC1).1.terminate = true ∧
    (Run quietEngine 1 cexC1b).map RunResult.keepRunning =
      Except.ok false := by
  refine ⟨?_, ?_, ?_⟩
  · have hr : Run quietEngine 0 { cexC1b with terminate := false, refCount := 0 } =
        Except.ok ⟨{ contextState 0 { cexC1b with terminate := false, refCount := 0 } with
          terminate := true }, false, []⟩ := rfl
    have h := (run_false_terminate_latch quietEngine quietEngine 0 0).1
      { cexC1b with terminate := false, refCount := 0 } _ hr rfl
    rw [hr]
    exact congrArg Except.ok (Prod.ext_iff.mpr ⟨rfl, h.1⟩)
  · exact ((run_false_terminate_latch quietEngine quietEngine 0 0).2.1
      cexC1 rfl).1
  · have hr : Run quietEngine 1 cexC1b =
        Except.ok ⟨{ contextState 1 cexC1b with terminate := true },
          false, []⟩ := rfl
    have h := (run_false_terminate_latch quietEngine quietEngine 0 1).2.2
      cexC1b _ hr rfl (by decide) (by decide)
    rw [hr]
    exact congrArg Except.ok h

end RTThread
